import Mathlib

/-!
Verification development for the TorchSDF packaging script (`setup.py`).

The script is embedded shallowly: ambient state (file contents, environment
variables, the imported toolchain, glob results, the compiler-banner
subprocess output) becomes explicit parameters, and fallible steps return
`Except Unit` where the original raises exceptions.
-/

namespace TorchSDF

/-! ### Python string primitives used by the script -/

/-- A character counted as whitespace by Python's `str.strip` / `str.split`. -/
def isPyWhitespace (c : Char) : Bool :=
  c = ' ' || c = '\t' || c = '\n' || c = '\r' || c = '\x0b' || c = '\x0c'

/-- Python `str.strip()`: drop leading and trailing whitespace. -/
def pyStrip (s : String) : String :=
  String.mk (((s.data.dropWhile isPyWhitespace).reverse.dropWhile isPyWhitespace).reverse)

/-- The first line of a character stream, including its terminating newline
when one is present (the behaviour of Python's `file.readline()`). -/
def takeLine : List Char → List Char
  | [] => []
  | c :: cs => if c = '\n' then ['\n'] else c :: takeLine cs

/-- Python `f.readline()` on a file whose whole contents are `s`. -/
def readline (s : String) : String :=
  String.mk (takeLine s.data)

/-- Split a character list at every character satisfying `p`, keeping empty
fields (so the result always has one more field than there are separators). -/
def splitOnPred (p : Char → Bool) : List Char → List (List Char)
  | [] => [[]]
  | c :: cs =>
    let rest := splitOnPred p cs
    if p c then [] :: rest
    else
      match rest with
      | [] => [[c]]
      | w :: ws => (c :: w) :: ws

/-- Python `str.split()` with no argument: split on whitespace runs,
dropping empty fields. -/
def pySplitWhitespace (s : String) : List String :=
  ((splitOnPred isPyWhitespace s.data).map String.mk).filter (fun w => w ≠ "")

/-- Python `str.split(".")`: split at every dot, keeping empty fields. -/
def pySplitDot (s : String) : List String :=
  (splitOnPred (fun c => c = '.') s.data).map String.mk

/-- Accumulate the value of a digit string; `none` on a non-digit. -/
def digitsAux : List Char → Nat → Option Nat
  | [], acc => some acc
  | c :: cs, acc =>
      if c.isDigit then digitsAux cs (acc * 10 + (c.toNat - 48)) else none

/-- The value of a nonempty all-digit character list, else `none`. -/
def digitsVal? : List Char → Option Nat
  | [] => none
  | cs => digitsAux cs 0

/-- Python `int(s)` on a decimal string: optional surrounding whitespace,
optional sign, then digits; `none` models a raised `ValueError`. -/
def pyInt? (s : String) : Option Int :=
  match (pyStrip s).data with
  | '-' :: rest => (digitsVal? rest).map (fun n => -(n : Int))
  | '+' :: rest => (digitsVal? rest).map (fun n => (n : Int))
  | cs => (digitsVal? cs).map (fun n => (n : Int))

/-! ### Version resolution and stamping (`read_version`, `write_version_file`) -/

/-- `PACKAGE_NAME = "torchsdf"` from the script header. -/
def PACKAGE_NAME : String := "torchsdf"

/-- `LICENSE = "Apache-2.0"` from the script header. -/
def LICENSE : String := "Apache-2.0"

/-- `read_version()`: `versionTxt` is the contents of `version.txt` when that
file exists (`none` when absent), `envVersion` the value of the
`TORCHSDF_VERSION` environment variable (`none` when unset).
The script returns `f.readline().strip()` from the file when present, and
`os.environ.get("TORCHSDF_VERSION", "0.0.0")` otherwise. -/
def read_version (versionTxt : Option String) (envVersion : Option String) : String :=
  match versionTxt with
  | some contents => pyStrip (readline contents)
  | none => envVersion.getD "0.0.0"

/-- The observable effect of one `write_version_file` definition: the path it
writes (as `os.path.join` components), whether it first creates the parent
directory (`os.makedirs`), and the full text written. -/
structure WriteVersionSpec where
  path : List String
  makedirs : Bool
  content : String
  deriving DecidableEq, Repr

/-- The first `write_version_file` definition (lines 27–31): writes
`os.path.join(cwd, "torchsdf", "version.py")` after `os.makedirs`. -/
def write_version_file_v1 (cwd version : String) : WriteVersionSpec :=
  { path := [cwd, "torchsdf", "version.py"]
  , makedirs := true
  , content := "__version__ = '" ++ version ++ "'\n" }

/-- The second `write_version_file` definition (lines 33–36): writes
`os.path.join(cwd, PACKAGE_NAME, "version.py")` with no `makedirs`. -/
def write_version_file_v2 (cwd version : String) : WriteVersionSpec :=
  { path := [cwd, PACKAGE_NAME, "version.py"]
  , makedirs := false
  , content := "__version__ = '" ++ version ++ "'\n" }

/-- The `write_version_file` actually invoked by `__main__`: in Python the
second `def` shadows the first. -/
def write_version_file (cwd version : String) : WriteVersionSpec :=
  write_version_file_v2 cwd version

/-! ### Toolchain version probing (`get_cuda_bare_metal_version`) -/

/-- `get_cuda_bare_metal_version`, given the raw text `rawOutput` printed by
`nvcc -V` (the `subprocess.check_output` result). The script splits the text
on whitespace, finds the token after `"release"`, unpacks it as
`major "." minor`, and returns `(raw_output, major, minor[0])`.
`Except.error ()` models each place the Python raises (`"release"` absent,
no following token, a dot-split not of exactly two fields, an empty minor). -/
def get_cuda_bare_metal_version (rawOutput : String) :
    Except Unit (String × String × String) :=
  let output := pySplitWhitespace rawOutput
  match output.findIdx? (fun w => w = "release") with
  | none => .error ()
  | some idx =>
    match output[idx + 1]? with
    | none => .error ()
    | some tok =>
      match pySplitDot tok with
      | [major, minor] =>
        match minor.data with
        | [] => .error ()
        | c :: _ => .ok (rawOutput, major, String.mk [c])
      | _ => .error ()

/-- The directory probed for `nvcc`: `CUDA_HOME or "/usr/local/cuda"`
(Python `or` also replaces an empty string). -/
def cuda_dir (CUDA_HOME : Option String) : String :=
  match CUDA_HOME with
  | none => "/usr/local/cuda"
  | some s => if s = "" then "/usr/local/cuda" else s

/-- `get_include_dirs()` returns the empty list. -/
def get_include_dirs : List String := []

/-! ### Conditional native-extension assembly (`build_extensions`, `__main__`) -/

/-- The environment variables the script reads; `none` means unset. -/
structure Env where
  TORCHSDF_BUILD_EXT : Option String
  TORCHSDF_VERSION : Option String
  FORCE_CUDA : Option String
  TORCH_CUDA_ARCH_LIST : Option String
  deriving DecidableEq, Repr

deriving instance DecidableEq for Except

/-- The observable state of a successful
`import torch; from torch.utils.cpp_extension import ...`:
`cuda_is_available` is `torch.cuda.is_available()`, `CUDA_HOME` the imported
constant, and `nvcc_banner` the outcome of running `nvcc -V` under
`subprocess.check_output` (`.error ()` when that call raises). -/
structure Toolchain where
  cuda_is_available : Bool
  CUDA_HOME : Option String
  nvcc_banner : Except Unit String
  deriving DecidableEq, Repr

/-- The keyword arguments of the one extension descriptor the script builds,
plus which constructor was used (`CUDAExtension` when `is_cuda`, else
`CppExtension`). -/
structure Extension where
  name : String
  sources : List String
  define_macros : List (String × Option String)
  extra_compile_args : List (String × List String)
  include_dirs : List String
  is_cuda : Bool
  deriving DecidableEq, Repr

/-- Everything observable about one run of `build_extensions` (or of the
`__main__` dispatch around it): the returned extension list, the keys of the
returned `cmdclass` dict, whether the toolchain-missing warning was logged,
and the final value of the `TORCH_CUDA_ARCH_LIST` environment variable. -/
structure BuildResult where
  ext_modules : List Extension
  cmdclass : List String
  warned : Bool
  arch_list : Option String
  deriving DecidableEq, Repr

/-- Lines 77–83: given the `(raw, major, minor)` probe outcome, the value the
script stores into `TORCH_CUDA_ARCH_LIST`, or `none` when it stores nothing
(probe raised, or `int()` raised inside the `try` block). -/
def default_arch_list (probe : Except Unit (String × String × String)) :
    Option String :=
  match probe with
  | .error _ => none
  | .ok (_, major, minor) =>
    match pyInt? major with
    | none => none
    | some m =>
      if m = 11 then
        match pyInt? minor with
        | none => none
        | some mi =>
          some ("6.0;6.1;6.2;7.0;7.5;" ++ (if mi = 0 then "8.0" else "8.0;8.6"))
      else some "6.0;6.1;6.2;7.0;7.5"

/-- The probe on line 77: run `nvcc -V` and parse its banner; an error at
either stage lands in the `except Exception: pass`. -/
def probe_version (banner : Except Unit String) :
    Except Unit (String × String × String) :=
  match banner with
  | .error e => .error e
  | .ok raw => get_cuda_bare_metal_version raw

/-- `build_extensions()`. `toolchain` is `none` when the `import` on lines
54–55 raises (any exception), and `globFn` gives the ambient filesystem's
answer to each `glob.glob(pattern, recursive=True)` call. -/
def build_extensions (toolchain : Option Toolchain) (env : Env)
    (globFn : String → List String) : BuildResult :=
  match toolchain with
  | none =>
    { ext_modules := []
    , cmdclass := []
    , warned := true
    , arch_list := env.TORCH_CUDA_ARCH_LIST }
  | some tc =>
    let use_cuda := tc.cuda_is_available || env.FORCE_CUDA.getD "0" == "1"
    let sources := globFn (PACKAGE_NAME ++ "/csrc/**/*.cpp") ++
      (if use_cuda then globFn (PACKAGE_NAME ++ "/csrc/**/*.cu") else [])
    let define_macros : List (String × Option String) :=
      if use_cuda then
        [("WITH_CUDA", none), ("THRUST_IGNORE_CUB_VERSION_CHECK", none)]
      else []
    let extra_compile_args : List (String × List String) :=
      if use_cuda then
        [("cxx", ["-O3"]),
         ("nvcc", ["-O3", "-DWITH_CUDA", "-DTHRUST_IGNORE_CUB_VERSION_CHECK"])]
      else [("cxx", ["-O3"])]
    let include_dirs := if use_cuda then get_include_dirs else []
    let arch_list :=
      if use_cuda && !tc.cuda_is_available && env.FORCE_CUDA.getD "0" == "1"
          && env.TORCH_CUDA_ARCH_LIST == none then
        default_arch_list (probe_version tc.nvcc_banner)
      else env.TORCH_CUDA_ARCH_LIST
    { ext_modules :=
        [{ name := PACKAGE_NAME ++ "._C"
         , sources := sources
         , define_macros := define_macros
         , extra_compile_args := extra_compile_args
         , include_dirs := include_dirs
         , is_cuda := use_cuda }]
    , cmdclass := ["build_ext"]
    , warned := false
    , arch_list := arch_list }

/-- The `__main__` dispatch (lines 104–106): `build_ext` is
`os.getenv("TORCHSDF_BUILD_EXT", "1") == "1"`; when false the pair
`([], {})` is used, otherwise `build_extensions()` is called. -/
def main_dispatch (toolchain : Option Toolchain) (env : Env)
    (globFn : String → List String) : BuildResult :=
  if env.TORCHSDF_BUILD_EXT.getD "1" == "1" then
    build_extensions toolchain env globFn
  else
    { ext_modules := []
    , cmdclass := []
    , warned := false
    , arch_list := env.TORCH_CUDA_ARCH_LIST }

/-! ### Concrete fixtures for witnesses -/

/-- An environment with every script variable unset. -/
def env_all_unset : Env :=
  { TORCHSDF_BUILD_EXT := none
  , TORCHSDF_VERSION := none
  , FORCE_CUDA := none
  , TORCH_CUDA_ARCH_LIST := none }

/-- An environment that disables the native build with `TORCHSDF_BUILD_EXT=0`. -/
def env_toggle_off : Env :=
  { TORCHSDF_BUILD_EXT := some "0"
  , TORCHSDF_VERSION := none
  , FORCE_CUDA := none
  , TORCH_CUDA_ARCH_LIST := none }

/-- The cross-compile environment: `FORCE_CUDA=1`, no explicit arch list. -/
def env_force_cuda : Env :=
  { TORCHSDF_BUILD_EXT := none
  , TORCHSDF_VERSION := none
  , FORCE_CUDA := some "1"
  , TORCH_CUDA_ARCH_LIST := none }

/-- A toolchain whose `nvcc -V` call raises. -/
def tc_banner_fails : Toolchain :=
  { cuda_is_available := false, CUDA_HOME := none, nvcc_banner := .error () }

/-- A toolchain without a runtime accelerator whose `nvcc -V` reports a
CUDA 11.0 release banner. -/
def tc_banner_110 : Toolchain :=
  { cuda_is_available := false
  , CUDA_HOME := none
  , nvcc_banner := .ok "Cuda compilation tools, release 11.0, V11.0.194" }

/-- The empty filesystem's answer to every glob pattern. -/
def glob_empty : String → List String := fun _ => []

/-! ### The claims -/

/-- C1: the resolved version string follows a fixed priority order — if the
version file exists it is the whitespace-trimmed first line of that file;
otherwise the value of `TORCHSDF_VERSION` if set; otherwise `"0.0.0"`. -/
theorem C1_version_priority (contents : String) (envVersion : Option String) :
    read_version (some contents) envVersion = pyStrip (readline contents)
  ∧ (∀ v : String, read_version none (some v) = v)
  ∧ read_version none none = "0.0.0" :=
  ⟨rfl, fun _ => rfl, rfl⟩

/-- C2: for every version-file content, the generated version file is exactly
the single line `__version__ = '<v>'` with `<v>` the trimmed first line of
the version file; in particular `1.2.3` yields `__version__ = '1.2.3'`. -/
theorem C2_version_stamp (cwd contents : String) (envVersion : Option String) :
    (write_version_file cwd (read_version (some contents) envVersion)).content
      = "__version__ = '" ++ pyStrip (readline contents) ++ "'\n"
  ∧ (write_version_file cwd (read_version (some "1.2.3") envVersion)).content
      = "__version__ = '1.2.3'\n" := by
  refine ⟨rfl, ?_⟩
  simp only [write_version_file, write_version_file_v2, read_version]
  decide

/-- C3: whenever `TORCHSDF_BUILD_EXT` is set to any value other than `"1"`,
the extension list handed to `setup` is empty and the `cmdclass` map is
empty, for every toolchain state. -/
theorem C3_toggle_disables_build (v : String) (hv : v ≠ "1")
    (toolchain : Option Toolchain) (env : Env)
    (henv : env.TORCHSDF_BUILD_EXT = some v) (globFn : String → List String) :
    (main_dispatch toolchain env globFn).ext_modules = []
  ∧ (main_dispatch toolchain env globFn).cmdclass = [] := by
  unfold main_dispatch
  rw [henv]
  simp [Option.getD, hv]

/-- Witness for C3 at `TORCHSDF_BUILD_EXT=0` with a missing toolchain. -/
theorem C3_toggle_disables_build_witness :
    ("0" : String) ≠ "1"
  ∧ env_toggle_off.TORCHSDF_BUILD_EXT = some "0"
  ∧ ((main_dispatch none env_toggle_off glob_empty).ext_modules = []
      ∧ (main_dispatch none env_toggle_off glob_empty).cmdclass = []) :=
  ⟨by decide, rfl, C3_toggle_disables_build "0" (by decide) none env_toggle_off rfl glob_empty⟩

/-- C4: when the toolchain import raises, `build_extensions` logs a warning
and returns the pair of an empty extension list and an empty customization
map; the embedding is a total function, so no error propagates. -/
theorem C4_import_failure_degrades (env : Env) (globFn : String → List String) :
    (build_extensions none env globFn).ext_modules = []
  ∧ (build_extensions none env globFn).cmdclass = []
  ∧ (build_extensions none env globFn).warned = true :=
  ⟨rfl, rfl, rfl⟩

/-- C5: with the toolchain imported, the one extension built is a CUDA
extension exactly when `torch.cuda.is_available()` holds or `FORCE_CUDA` is
`"1"`; its sources are the `.cpp` glob always, with the `.cu` glob appended
exactly in accelerator mode. -/
theorem C5_cuda_selection_and_globs (tc : Toolchain) (env : Env)
    (globFn : String → List String) :
    ∃ e : Extension,
      (build_extensions (some tc) env globFn).ext_modules = [e]
    ∧ e.is_cuda = (tc.cuda_is_available || env.FORCE_CUDA.getD "0" == "1")
    ∧ e.sources = globFn (PACKAGE_NAME ++ "/csrc/**/*.cpp") ++
        (if e.is_cuda then globFn (PACKAGE_NAME ++ "/csrc/**/*.cu") else []) :=
  ⟨_, rfl, rfl, rfl⟩

/-- C6: in the forced cross-compile case (accelerator mode on, no runtime
accelerator, `FORCE_CUDA=1`, `TORCH_CUDA_ARCH_LIST` unset), the banner probe
drives a fixed table keyed on the major version: major 11 gives
`6.0;6.1;6.2;7.0;7.5;` followed by `8.0` when the minor is 0 and `8.0;8.6`
otherwise; any other major gives `6.0;6.1;6.2;7.0;7.5`. -/
theorem C6_arch_table (tc : Toolchain) (env : Env)
    (globFn : String → List String) (raw major minor : String) (m : Int)
    (hav : tc.cuda_is_available = false)
    (hforce : env.FORCE_CUDA = some "1")
    (harch : env.TORCH_CUDA_ARCH_LIST = none)
    (hprobe : probe_version tc.nvcc_banner = .ok (raw, major, minor))
    (hm : pyInt? major = some m) :
    (m = 11 → pyInt? minor = some 0 →
      (build_extensions (some tc) env globFn).arch_list
        = some "6.0;6.1;6.2;7.0;7.5;8.0")
  ∧ (∀ k : Int, m = 11 → pyInt? minor = some k → k ≠ 0 →
      (build_extensions (some tc) env globFn).arch_list
        = some "6.0;6.1;6.2;7.0;7.5;8.0;8.6")
  ∧ (m ≠ 11 →
      (build_extensions (some tc) env globFn).arch_list
        = some "6.0;6.1;6.2;7.0;7.5") := by
  have key : (build_extensions (some tc) env globFn).arch_list
      = default_arch_list (probe_version tc.nvcc_banner) := by
    simp [build_extensions, hav, hforce, harch]
  rw [hprobe] at key
  refine ⟨?_, ?_, ?_⟩
  · intro h11 h0
    rw [key]
    simp [default_arch_list, hm, h11, h0]
  · intro k h11 hk hk0
    rw [key]
    simp [default_arch_list, hm, h11, hk, hk0]
  · intro hne
    rw [key]
    simp [default_arch_list, hm, hne]

/-- Witness for C6: a CUDA 11.0 banner under `FORCE_CUDA=1` selects the
major-11 / minor-0 row of the table. -/
theorem C6_arch_table_witness :
    (build_extensions (some tc_banner_110) env_force_cuda glob_empty).arch_list
      = some "6.0;6.1;6.2;7.0;7.5;8.0" :=
  (C6_arch_table tc_banner_110 env_force_cuda glob_empty
    "Cuda compilation tools, release 11.0, V11.0.194" "11" "0" 11
    rfl rfl rfl (by decide) (by decide)).1 rfl (by decide)

/-- C7: in the same forced cross-compile configuration, a failing probe is
swallowed: the run still produces the normal single-extension result and
`TORCH_CUDA_ARCH_LIST` stays unset. -/
theorem C7_probe_failure_swallowed (tc : Toolchain) (env : Env)
    (globFn : String → List String)
    (hav : tc.cuda_is_available = false)
    (hforce : env.FORCE_CUDA = some "1")
    (harch : env.TORCH_CUDA_ARCH_LIST = none)
    (hfail : probe_version tc.nvcc_banner = .error ()) :
    (build_extensions (some tc) env globFn).arch_list = none
  ∧ (build_extensions (some tc) env globFn).cmdclass = ["build_ext"]
  ∧ (build_extensions (some tc) env globFn).ext_modules ≠ [] := by
  have key : (build_extensions (some tc) env globFn).arch_list
      = default_arch_list (probe_version tc.nvcc_banner) := by
    simp [build_extensions, hav, hforce, harch]
  rw [hfail] at key
  exact ⟨key, rfl, by simp [build_extensions]⟩

/-- Witness for C7: a toolchain whose `nvcc -V` call raises. -/
theorem C7_probe_failure_swallowed_witness :
    (build_extensions (some tc_banner_fails) env_force_cuda glob_empty).arch_list = none
  ∧ (build_extensions (some tc_banner_fails) env_force_cuda glob_empty).cmdclass
      = ["build_ext"]
  ∧ (build_extensions (some tc_banner_fails) env_force_cuda glob_empty).ext_modules
      ≠ [] :=
  C7_probe_failure_swallowed tc_banner_fails env_force_cuda glob_empty rfl rfl rfl rfl

/-- C8 as stated is false: with `TORCHSDF_BUILD_EXT` unset the script
defaults the toggle to `"1"` and attempts the native build — here the
attempt yields a nonempty extension list. -/
theorem C8_counterexample :
    (main_dispatch (some tc_banner_fails) env_all_unset glob_empty).ext_modules
      ≠ [] := by decide

/-- C8 amended: `TORCHSDF_VERSION` defaults to the constant `0.0.0`,
`FORCE_CUDA` defaults to off (no accelerator mode without a detected
runtime accelerator), and the toolchain home falls back to
`/usr/local/cuda`; but the build toggle defaults to ON: with
`TORCHSDF_BUILD_EXT` unset the native build is attempted
(`main` runs `build_extensions`). -/
theorem C8_env_defaults (env : Env) (toolchain : Option Toolchain)
    (globFn : String → List String) (tc : Toolchain)
    (htoggle : env.TORCHSDF_BUILD_EXT = none)
    (hforce : env.FORCE_CUDA = none)
    (hav : tc.cuda_is_available = false) :
    main_dispatch toolchain env globFn = build_extensions toolchain env globFn
  ∧ read_version none none = "0.0.0"
  ∧ cuda_dir none = "/usr/local/cuda"
  ∧ (build_extensions (some tc) env globFn).ext_modules.map Extension.is_cuda
      = [false] := by
  refine ⟨?_, rfl, rfl, ?_⟩
  · unfold main_dispatch
    rw [htoggle]
    rfl
  · simp [build_extensions, hav, hforce]

/-- Witness for the amended C8 at an all-unset environment. -/
theorem C8_env_defaults_witness :
    main_dispatch (some tc_banner_fails) env_all_unset glob_empty
      = build_extensions (some tc_banner_fails) env_all_unset glob_empty
  ∧ read_version none none = "0.0.0"
  ∧ cuda_dir none = "/usr/local/cuda"
  ∧ (build_extensions (some tc_banner_fails) env_all_unset glob_empty).ext_modules.map
      Extension.is_cuda = [false] :=
  C8_env_defaults env_all_unset (some tc_banner_fails) glob_empty tc_banner_fails
    rfl rfl rfl

/-- C9 as stated is false: the two `write_version_file` definitions target
the same path, exhibited here at `cwd = "/repo"`, `version = "1.2.3"`
(`PACKAGE_NAME` is the literal `"torchsdf"`). -/
theorem C9_counterexample :
    (write_version_file_v1 "/repo" "1.2.3").path
      = (write_version_file_v2 "/repo" "1.2.3").path := by decide

/-- C9 amended: the script does contain two definitions of
`write_version_file` and the second shadows the first and is the one
invoked, but both target the same path `cwd/torchsdf/version.py` and write
identical contents; they differ only in that the first creates the parent
directory and the shadowing one does not. -/
theorem C9_shadowed_same_path (cwd version : String) :
    (write_version_file_v1 cwd version).path = (write_version_file_v2 cwd version).path
  ∧ (write_version_file_v1 cwd version).content
      = (write_version_file_v2 cwd version).content
  ∧ (write_version_file_v1 cwd version).makedirs = true
  ∧ (write_version_file_v2 cwd version).makedirs = false
  ∧ write_version_file cwd version = write_version_file_v2 cwd version :=
  ⟨rfl, rfl, rfl, rfl, rfl⟩

/-- C10: whenever the banner parse succeeds — the whitespace token after
`release` splits at dots into exactly a major and a nonempty minor — the
function returns the full major but only the first character of the minor,
so the choice between `8.0` and `8.0;8.6` in the major-11 row depends only
on that first digit. -/
theorem C10_minor_first_char (banner tok major minor : String) (idx : Nat)
    (c : Char) (rest : List Char)
    (hidx : (pySplitWhitespace banner).findIdx? (fun w => w = "release") = some idx)
    (htok : (pySplitWhitespace banner)[idx + 1]? = some tok)
    (hsplit : pySplitDot tok = [major, minor])
    (hminor : minor.data = c :: rest) :
    get_cuda_bare_metal_version banner = .ok (banner, major, String.mk [c])
  ∧ (∀ mv : Int, pyInt? major = some 11 → pyInt? (String.mk [c]) = some mv →
      default_arch_list (Except.ok (banner, major, String.mk [c]))
        = some ("6.0;6.1;6.2;7.0;7.5;" ++ (if mv = 0 then "8.0" else "8.0;8.6"))) := by
  constructor
  · simp only [get_cuda_bare_metal_version, hidx, htok, hsplit, hminor]
  · intro mv h11 hmv
    simp [default_arch_list, h11, hmv]

/-- Witness for C10: the banner `release 11.10` parses to major `11` and
minor `1` (not `10`), landing in the `8.0;8.6` row. -/
theorem C10_minor_first_char_witness :
    get_cuda_bare_metal_version "release 11.10" = .ok ("release 11.10", "11", "1")
  ∧ default_arch_list (Except.ok ("release 11.10", "11", "1"))
      = some "6.0;6.1;6.2;7.0;7.5;8.0;8.6" := by
  have hc : String.mk ['1'] = "1" := by decide
  have h := C10_minor_first_char "release 11.10" "11.10" "11" "10" 0 '1' ['0']
    (by decide) (by decide) (by decide) (by decide)
  rw [hc] at h
  exact ⟨h.1, h.2 1 (by decide) (by decide)⟩

end TorchSDF
